import Mathlib

/-!
Verification of the agent-router repository's task-orchestration SDK and
example agents against its specification.

The Python sources are shallowly embedded:

* `agent_sdk/types.py` — the enums (`TaskStatus`, `PostType`, …) and the
  pydantic record types become Lean inductives and structures; the string
  value of each enum member and the value-based lookup a `str` Enum performs
  (`TaskStatus("x")`) are modelled explicitly.
* `agent_sdk/client.py` — each client method is embedded as a pure function
  from its arguments (plus the state of the fresh-uuid supply and the HTTP
  response that the external server would give) to the request it issues,
  the next supply state, and the value it returns or the exception it
  raises (`Except`).
* `agent_sdk/base.py` — the heartbeat loop and `start`/`stop` become
  functions over an explicit agent state and a finite trace of heartbeat
  outcomes.
* `agent_sdk/local_tools.py` and `agent_sdk/code_nav.py` — the filesystem is
  a finite map from relative paths to string contents for `read_file` /
  `write_file`, and a finite tree of entries for the directory walkers.
* The server-side task lifecycle state machine is not part of this
  repository's sources; where a claim depends on it, it is modelled from
  the specification (marked `Modelled from the spec:`).

UUIDs and timestamps are opaque tokens, modelled as `Nat` drawn from an
injective supply.
-/

namespace AgentRouter

/-! ## agent_sdk/types.py -/

/-- `TaskStatus` from `agent_sdk/types.py`: the five members of the `str`
enum, in source order. -/
inductive TaskStatus : Type where
  | backlog
  | ready
  | in_progress
  | in_review
  | done
deriving Repr, DecidableEq

/-- The wire value of each `TaskStatus` member (the string after `=` in the
enum). -/
def TaskStatus.value : TaskStatus → String
  | .backlog => "backlog"
  | .ready => "ready"
  | .in_progress => "in_progress"
  | .in_review => "in_review"
  | .done => "done"

/-- Every member of the `TaskStatus` enum, in declaration order (what
`list(TaskStatus)` yields). -/
def TaskStatus.all : List TaskStatus :=
  [.backlog, .ready, .in_progress, .in_review, .done]

/-- Value-based member lookup, what `TaskStatus("s")` performs for a `str`
enum: `some` member whose value is `s`, else `none` (Python raises
`ValueError`). -/
def TaskStatus.fromString (s : String) : Option TaskStatus :=
  TaskStatus.all.find? (fun t => t.value == s)

/-- `PostType` from `agent_sdk/types.py`: the seven members of the `str`
enum, in source order. -/
inductive PostType : Type where
  | progress
  | blocker
  | help_wanted
  | decision
  | artifact
  | review_req
  | comment
deriving Repr, DecidableEq

/-- The wire value of each `PostType` member. -/
def PostType.value : PostType → String
  | .progress => "progress"
  | .blocker => "blocker"
  | .help_wanted => "help_wanted"
  | .decision => "decision"
  | .artifact => "artifact"
  | .review_req => "review_req"
  | .comment => "comment"

/-- Every member of the `PostType` enum, in declaration order. -/
def PostType.all : List PostType :=
  [.progress, .blocker, .help_wanted, .decision, .artifact, .review_req, .comment]

/-- Value-based member lookup for the `PostType` `str` enum. -/
def PostType.fromString (s : String) : Option PostType :=
  PostType.all.find? (fun t => t.value == s)

/-- `Priority` from `agent_sdk/types.py`. -/
inductive Priority : Type where
  | critical
  | high
  | medium
  | low
deriving Repr, DecidableEq

/-- `BranchType` from `agent_sdk/types.py`. -/
inductive BranchType : Type where
  | feature
  | fix
  | refactor
deriving Repr, DecidableEq

/-- The `Task` pydantic model from `agent_sdk/types.py`. UUIDs and datetimes
are opaque tokens (`Nat`). -/
structure Task : Type where
  id : Nat
  project_id : Nat
  title : String
  description : String
  status : TaskStatus
  priority : Priority
  assigned_agent_id : Option Nat
  parent_task_id : Option Nat
  branch_type : BranchType
  branch_name : String
  labels : List String
  created_by : String
  created_at : Nat
  updated_at : Nat
  started_at : Option Nat
  completed_at : Option Nat
deriving Repr, DecidableEq

/-- The `Message` pydantic model from `agent_sdk/types.py`; `metadata` is a
string-keyed map. -/
structure Message : Type where
  id : Nat
  thread_id : Nat
  agent_id : Option Nat
  post_type : PostType
  content : String
  metadata : List (String × String)
  created_at : Nat
deriving Repr, DecidableEq

/-- The `PR` pydantic model from `agent_sdk/types.py`. -/
structure PR : Type where
  id : Int
  url : String
  number : Int
  head : String
  base : String
  title : String
  body : String
deriving Repr, DecidableEq

/-! ## Status strings and post types driven by agents/example/simulate_pipeline.py

`simulate_pipeline.py` exercises the running server mechanically. These
constants record, straight from that file, the status values it drives
tasks through and the `(status_from, status_to)` pairs of every
status-transition request it issues (the REST `PATCH` bodies and the
`update_task_status` MCP calls), plus the post types it posts. -/

/-- Every task-status string `simulate_pipeline.py` sends or asserts on
(`backlog`/`ready` in `create_task`, `in_progress`, `in_qa`, `in_review`,
`merged` across the three scenarios). -/
def simulateDrivenStatuses : List String :=
  ["backlog", "ready", "in_progress", "in_qa", "in_review", "merged"]

/-- Every `(status_from, status_to)` pair of a status-transition request
issued by `simulate_pipeline.py`. -/
def simulatePatchEdges : List (String × String) :=
  [("backlog", "ready"), ("ready", "in_progress"), ("in_progress", "in_qa"),
   ("in_qa", "in_review"), ("in_qa", "in_progress"), ("in_review", "merged")]

/-- Every `post_type` string posted by `simulate_pipeline.py`
(`artifact` in scenarios 1 and `review_feedback` in scenario 2, which it
also filters messages by). -/
def simulatePostTypes : List String := ["artifact", "review_feedback"]

/-! ## The task lifecycle state machine (server side, not under src/) -/

namespace SpecModel

/-- Modelled from the spec: the six lifecycle states of §4.1
(`backlog → ready → in_progress → in_qa → {in_review | in_progress} →
{merged | in_progress}`). The server that owns this state machine is not
part of this repository's sources. -/
inductive SpecStatus : Type where
  | backlog
  | ready
  | in_progress
  | in_qa
  | in_review
  | merged
deriving Repr, DecidableEq

/-- The wire value of each spec lifecycle state. -/
def SpecStatus.value : SpecStatus → String
  | .backlog => "backlog"
  | .ready => "ready"
  | .in_progress => "in_progress"
  | .in_qa => "in_qa"
  | .in_review => "in_review"
  | .merged => "merged"

/-- Modelled from the spec: the permitted directed edges of §4.1, and no
other. -/
def permittedEdges : List (SpecStatus × SpecStatus) :=
  [(.backlog, .ready), (.ready, .in_progress), (.in_progress, .in_qa),
   (.in_qa, .in_review), (.in_qa, .in_progress),
   (.in_review, .merged), (.in_review, .in_progress)]

/-- The permitted edges of §4.1 as `(from, to)` wire-value pairs, for
comparison with the string bodies the SDK and the simulation send. -/
def permittedEdgeStrings : List (String × String) :=
  permittedEdges.map (fun e => (e.1.value, e.2.value))

/-- Modelled from the spec: the per-task record the state machine mutates —
lifecycle status, the ownership lock (`assigned_agent`), and the start /
completion stamps (§3, §4.1). -/
structure SpecTask : Type where
  status : SpecStatus
  assigned_agent : Option Nat
  started_at : Option Nat
  completed_at : Option Nat
deriving Repr, DecidableEq

/-- Modelled from the spec: the error kinds of `transition` (§4.1, §7). -/
inductive TransitionError : Type where
  | invalidTransition
  | staleState
  | notOwner
  | alreadyOwned
deriving Repr, DecidableEq

/-- The `ready→in_progress` edge is the claim operation (§4.1, §4.2). -/
def isClaimEdge (f t : SpecStatus) : Bool :=
  f == .ready && t == .in_progress

/-- Modelled from the spec: the successful effect of a transition (§4.1) —
the status is updated, entering `in_progress` for the first time sets
`started_at`, entering `merged` sets `completed_at`, and ownership changes
only on the claim edge (§4.2: ownership and lifecycle status are orthogonal
fields; only the claim operation may change ownership). -/
def applyEdge (tk : SpecTask) (f t : SpecStatus) (caller : Nat) (now : Nat) : SpecTask :=
  { tk with
    status := t
    assigned_agent := if isClaimEdge f t then some caller else tk.assigned_agent
    started_at :=
      if t == .in_progress && tk.started_at == none then some now else tk.started_at
    completed_at := if t == .merged then some now else tk.completed_at }

/-- Modelled from the spec: the `transition` operation of §4.1.
Fails with `InvalidTransition` off the permitted edges, `StaleState` on an
optimistic-precondition mismatch, and `NotOwner` when an assigned task is
driven by another agent — except on the claim edge, where a caller other
than a live owner gets `AlreadyOwned` and a stale owner is displaced
(the §4.2 liveness-based takeover; liveness is an oracle argument here,
the Agent Registry being external to the machine). -/
def transition (tk : SpecTask) (f t : SpecStatus) (caller : Nat) (now : Nat)
    (ownerLive : Bool) : Except TransitionError SpecTask :=
  if !(permittedEdges.contains (f, t)) then .error .invalidTransition
  else if tk.status != f then .error .staleState
  else
    match tk.assigned_agent with
    | none => .ok (applyEdge tk f t caller now)
    | some a =>
      if a == caller then .ok (applyEdge tk f t caller now)
      else if isClaimEdge f t then
        if ownerLive then .error .alreadyOwned
        else .ok (applyEdge tk f t caller now)
      else .error .notOwner

end SpecModel

/-! ## agent_sdk/client.py -/

namespace Client

/-- An opaque RFC-4122 identifier. Fresh uuids are modelled as successive
draws from an injective supply indexed by `Nat`. -/
structure Uuid : Type where
  counter : Nat
deriving Repr, DecidableEq

/-- `uuid4()`: the draw at supply position `n`. Distinct positions give
distinct uuids (`Uuid.mk` is injective), which is all the embedding assumes
about uuid generation. -/
def uuid4 (n : Nat) : Uuid := ⟨n⟩

/-- An HTTP request as `AgentMeshClient` builds it: method, path, the JSON
body as string key-value pairs, and the headers (the only header any method
sets is `X-Idempotency-Key`, whose value is a uuid). -/
structure HttpRequest : Type where
  method : String
  path : String
  body : List (String × String)
  headers : List (String × Uuid)
deriving Repr, DecidableEq

/-- The server's answer to a request, as far as the client inspects it: the
status code, and the decoded JSON body when the method parses one into a
pydantic model. -/
structure HttpResponse : Type where
  statusCode : Nat
  bodyTask : Option Task
  bodyMessage : Option Message
  bodyPR : Option PR
deriving Repr, DecidableEq

/-- The exceptions a client method can raise: `httpx.HTTPStatusError` from
`raise_for_status`, and pydantic's `ValidationError` when a response body
does not decode into the expected model. All are subclasses of Python's
`Exception`. -/
inductive PyError : Type where
  | statusError (code : Nat)
  | validationError
deriving Repr, DecidableEq

/-- `resp.raise_for_status()`: raises `HTTPStatusError` on a 4xx/5xx code. -/
def raise_for_status (code : Nat) : Except PyError Unit :=
  if 400 ≤ code then .error (.statusError code) else .ok ()

/-- What a client method hands back to its Python caller: `None`, or a
decoded `Task` / `Message` / `PR`. -/
inductive ClientReturn : Type where
  | unit
  | task (t : Task)
  | message (m : Message)
  | pr (p : PR)
deriving Repr, DecidableEq

deriving instance DecidableEq for Except

/-- One client-method invocation, fully observed: the request it issued,
the uuid-supply position after it (each `uuid4()` call consumes one), and
the value it returned or the exception it raised. -/
structure ClientCall : Type where
  request : HttpRequest
  nextGen : Nat
  result : Except PyError ClientReturn
deriving Repr, DecidableEq

/-- `AgentMeshClient.update_task_status` from `agent_sdk/client.py`: a
`PATCH /api/tasks/{task_id}` with body `{status_from, status_to}` (the
enum members' wire values) and a freshly generated `X-Idempotency-Key`;
`raise_for_status`, then the function ends, returning `None` (its
annotated return type) — the response body is never read. -/
def update_task_status (gen : Nat) (task_id : String)
    (from_status to_status : TaskStatus) (resp : HttpResponse) : ClientCall :=
  { request :=
      { method := "PATCH"
        path := "/api/tasks/" ++ task_id
        body := [("status_from", from_status.value), ("status_to", to_status.value)]
        headers := [("X-Idempotency-Key", uuid4 gen)] }
    nextGen := gen + 1
    result :=
      match raise_for_status resp.statusCode with
      | .error e => .error e
      | .ok _ => .ok .unit }

/-- `AgentMeshClient.post_message`: a `POST` to the thread's messages
endpoint with a freshly generated `X-Idempotency-Key`; `raise_for_status`,
then `Message(**resp.json())` is returned. -/
def post_message (gen : Nat) (thread_id : String) (agent_id : String)
    (post_type : PostType) (content : String) (resp : HttpResponse) : ClientCall :=
  { request :=
      { method := "POST"
        path := "/api/threads/" ++ thread_id ++ "/messages"
        body := [("agent_id", agent_id), ("post_type", post_type.value),
                 ("content", content)]
        headers := [("X-Idempotency-Key", uuid4 gen)] }
    nextGen := gen + 1
    result :=
      match raise_for_status resp.statusCode with
      | .error e => .error e
      | .ok _ =>
        match resp.bodyMessage with
        | some m => .ok (.message m)
        | none => .error .validationError }

/-- `AgentMeshClient.open_pr`: a `POST /api/git/pr` with a freshly
generated `X-Idempotency-Key`; `raise_for_status`, then
`PR(**resp.json())` is returned. -/
def open_pr (gen : Nat) (title bodyText head base : String)
    (resp : HttpResponse) : ClientCall :=
  { request :=
      { method := "POST"
        path := "/api/git/pr"
        body := [("title", title), ("body", bodyText), ("head", head),
                 ("base", base)]
        headers := [("X-Idempotency-Key", uuid4 gen)] }
    nextGen := gen + 1
    result :=
      match raise_for_status resp.statusCode with
      | .error e => .error e
      | .ok _ =>
        match resp.bodyPR with
        | some p => .ok (.pr p)
        | none => .error .validationError }

/-- `AgentMeshClient.heartbeat`: a `POST` to the agent's heartbeat endpoint
(no idempotency header, no body), then `raise_for_status`. The transport
outcome is the status code the server answered, or an exception from the
transport itself. -/
def heartbeat (resp : Except PyError Nat) : Except PyError Unit :=
  match resp with
  | .error e => .error e
  | .ok code => raise_for_status code

end Client

/-! ## agent_sdk/base.py -/

namespace Base

open Client

/-- Whether an exception is caught by `except Exception`. Every error the
client raises (`PyError`) is an `httpx` or pydantic exception, all
subclasses of Python's `Exception`. -/
def isExceptionClass : PyError → Bool := fun _ => true

/-- The outcome of `BaseAgent._heartbeat_loop` over a finite trace of
heartbeat attempts: the loop ran the whole trace and ended when `_running`
went false, having logged the listed warnings — or it crashed on an
uncaught exception. -/
inductive LoopResult : Type where
  | completed (warnings : List PyError)
  | crashed (e : PyError)
deriving Repr, DecidableEq

/-- `BaseAgent._heartbeat_loop`, one iteration per element of the trace
(each element is the transport outcome of that iteration's
`client.heartbeat` call while `_running` was still true): `try` the
heartbeat; `except Exception as e` logs a warning and the loop continues
with the next iteration; an exception `except Exception` would not catch
crashes the loop. -/
def heartbeatLoopAux : List (Except PyError Nat) → List PyError → LoopResult
  | [], log => .completed log
  | r :: rest, log =>
    match heartbeat r with
    | .ok _ => heartbeatLoopAux rest log
    | .error e =>
      if isExceptionClass e then heartbeatLoopAux rest (log ++ [e])
      else .crashed e

/-- `BaseAgent._heartbeat_loop` started with an empty log. -/
def heartbeatLoop (trace : List (Except PyError Nat)) : LoopResult :=
  heartbeatLoopAux trace []

/-- The warning one iteration logs: `some e` when that iteration's
heartbeat raises `e`, `none` when it succeeds. -/
def heartbeatWarning (r : Except PyError Nat) : Option PyError :=
  match heartbeat r with
  | .ok _ => none
  | .error e => some e

/-- The fields of `BaseAgent` that `start`/`stop` mutate: `_running`, the
heartbeat thread, and whether the underlying HTTP client was closed. -/
structure AgentState : Type where
  running : Bool
  heartbeatThreadStarted : Bool
  clientClosed : Bool
deriving Repr, DecidableEq

/-- `BaseAgent.stop`: sets `_running = False` and closes the HTTP client. -/
def stop (s : AgentState) : AgentState :=
  { s with running := false, clientClosed := true }

/-- Python's `try: body finally: cleanup`: the cleanup runs whether the
body returned normally or raised, and the body's outcome is then
propagated. -/
def tryFinally (bodyResult : Except PyError Unit)
    (cleanup : AgentState → AgentState) (s : AgentState) :
    AgentState × Except PyError Unit :=
  match bodyResult with
  | .ok _ => (cleanup s, .ok ())
  | .error e => (cleanup s, .error e)

/-- `BaseAgent.start`: sets `_running = True`, starts the heartbeat thread,
then runs `self.run()` inside `try ... finally: self.stop()`. `runResult`
is how the subclass's `run` ended — normally, or by raising. -/
def start (s : AgentState) (runResult : Except PyError Unit) :
    AgentState × Except PyError Unit :=
  let s1 : AgentState := { s with running := true }
  let s2 : AgentState := { s1 with heartbeatThreadStarted := true }
  tryFinally runResult stop s2

end Base

/-! ## agent_sdk/local_tools.py — read_file / write_file -/

namespace LocalTools

/-- Splits file content into lines, each keeping its trailing newline, as
Python's `readlines()` does: `acc` holds the current (reversed) partial
line. `"a\nb"` gives `["a\n", "b"]`, `"a\n"` gives `["a\n"]`, `""` gives
`[]`. -/
def splitLinesAux : List Char → List Char → List (List Char)
  | [], [] => []
  | [], acc => [acc.reverse]
  | c :: cs, acc =>
    if c = '\n' then (acc.reverse ++ ['\n']) :: splitLinesAux cs []
    else splitLinesAux cs (c :: acc)

/-- `f.readlines()` on the file's content. -/
def readlines (content : List Char) : List (List Char) :=
  splitLinesAux content []

/-- The files a `LocalTools` working directory holds: relative path to
string content. Newer writes are consed on and shadow older entries. -/
structure FileSystem : Type where
  files : List (String × String)
deriving Repr, DecidableEq

/-- The content stored at a path, newest write first. -/
def FileSystem.lookup (fs : FileSystem) (path : String) : Option String :=
  match fs.files.find? (fun e => e.1 == path) with
  | some e => some e.2
  | none => none

/-- `LocalTools.write_file`: creates parent directories (a no-op in the
path-keyed map model) and opens the file in text mode `"w"`, replacing its
content with `content`. Text-mode writing with `newline=None` translates
`"\n"` to `os.linesep`, the identity on the POSIX platforms the agents
run on, so the stored bytes are the written string. -/
def write_file (fs : FileSystem) (path : String) (content : String) : FileSystem :=
  ⟨(path, content) :: fs.files⟩

/-- One pass of the universal-newlines translation; the flag records that
the previous character was a `"\r"` (already emitted as `"\n"`), so that
the `"\n"` of a `"\r\n"` pair is swallowed. -/
def translateNewlinesAux : Bool → List Char → List Char
  | _, [] => []
  | prevCr, c :: rest =>
    if c = '\r' then '\n' :: translateNewlinesAux true rest
    else if c = '\n' then
      if prevCr then translateNewlinesAux false rest
      else '\n' :: translateNewlinesAux false rest
    else c :: translateNewlinesAux false rest

/-- Python's universal-newlines translation, applied to everything a
default (text-mode, `newline=None`) `open` reads: each `"\r\n"` pair and
each lone `"\r"` becomes `"\n"`. -/
def translateNewlines (s : List Char) : List Char :=
  translateNewlinesAux false s

/-- `LocalTools.read_file`: opens the file in default text mode (`none` —
a raised `FileNotFoundError` — when absent), whose reads pass the stored
content through the universal-newlines translation; then `readlines()`,
`end_line` defaulted to `len(lines)`, and
`"".join(lines[start_line:end_line])` is returned. (The Python slice
`lines[a:b]` for the non-negative indices used here is
`(lines.take b).drop a`.) -/
def read_file (fs : FileSystem) (path : String) (start_line : Nat)
    (end_line : Option Nat) : Option String :=
  match fs.lookup path with
  | none => none
  | some content =>
    let lines := readlines (translateNewlines content.data)
    let endIdx := end_line.getD lines.length
    some (String.mk ((lines.take endIdx).drop start_line).flatten)

end LocalTools

/-! ## The directory walkers of local_tools.py and code_nav.py

A directory tree is a finite inductive: files, and directories that carry a
readability flag (`iterdir()` on an unreadable directory raises
`PermissionError`, which both walkers swallow) and their entries.
`LocalTools._walk` and `CodeNavigator._tree` share their shape — guard on
depth, sort the entries dirs-first-then-by-name, skip some names, emit
`prefix + name + ("/" if dir)`, recurse two spaces deeper into
subdirectories — and differ only in the skip set, so they are embedded as
one pair of functions over a skip predicate.

The Python recursion is on `current_depth`, bounded by the entry guard
`current_depth >= max_depth`; the embedding recurses on the fuel
`max_depth - current_depth`, which that guard makes zero exactly when the
source returns without emitting, and which each recursive call
(`current_depth + 1`) decrements. -/

/-- One entry of a directory tree. -/
inductive FsEntry : Type where
  | file (name : String)
  | dir (name : String) (readable : Bool) (entries : List FsEntry)
deriving Repr

/-- `entry.name`. -/
def FsEntry.name : FsEntry → String
  | .file n => n
  | .dir n _ _ => n

/-- `entry.is_dir()`. -/
def FsEntry.isDir : FsEntry → Bool
  | .file _ => false
  | .dir _ _ _ => true

/-- The first component of the sort key `(not e.is_dir(), e.name)`:
directories rank before files. -/
def FsEntry.rank (e : FsEntry) : Nat :=
  if e.isDir then 0 else 1

/-- Strict order on the sort key `(not e.is_dir(), e.name)`. -/
def entryLt (a b : FsEntry) : Bool :=
  Nat.blt a.rank b.rank ||
    (a.rank == b.rank && compare a.name b.name == Ordering.lt)

/-- Stable insertion: `e` goes in front of the first strictly greater
entry, after any equal keys, as Python's stable `sorted` would place it. -/
def insertEntry (e : FsEntry) : List FsEntry → List FsEntry
  | [] => [e]
  | x :: xs => if entryLt e x then e :: x :: xs else x :: insertEntry e xs

/-- `sorted(path.iterdir(), key=lambda e: (not e.is_dir(), e.name))` as a
stable insertion sort. -/
def sortEntries : List FsEntry → List FsEntry
  | [] => []
  | e :: es => insertEntry e (sortEntries es)

/-- The loop body over one directory level: skip `skip` entries, emit
`pre + name` with a trailing `/` for directories, and walk into each
subdirectory through `recurse` with the prefix grown by two spaces. -/
def walkLevel (skip : FsEntry → Bool)
    (recurse : Bool → List FsEntry → String → List String) :
    List FsEntry → String → List String
  | [], _ => []
  | e :: rest, pre =>
    (if skip e then []
     else
       (pre ++ e.name ++ (if e.isDir then "/" else "")) ::
         (match e with
          | .file _ => []
          | .dir _ r es => recurse r es (pre ++ "  "))) ++
    walkLevel skip recurse rest pre

/-- The common recursion of `_walk` / `_tree` on the fuel
`max_depth - current_depth`: zero fuel is the `current_depth >= max_depth`
early return, an unreadable directory is the swallowed `PermissionError`,
and each level walks its sorted entries with one unit of fuel less for the
subdirectories. -/
def walkDirFuel (skip : FsEntry → Bool) :
    Nat → Bool → List FsEntry → String → List String
  | 0, _, _, _ => []
  | f + 1, readable, entries, pre =>
    if readable then
      walkLevel skip (fun r es p => walkDirFuel skip f r es p) (sortEntries entries) pre
    else []

/-- The `entry.name.startswith(".")` skip of `LocalTools._walk`. -/
def walkSkip (e : FsEntry) : Bool :=
  e.name.startsWith "."

/-- The name set `CodeNavigator._tree` skips besides dot-names. -/
def treeExcludedNames : List String :=
  ["node_modules", "__pycache__", "vendor", ".git"]

/-- The skip of `CodeNavigator._tree`: dot-names and the excluded set. -/
def treeSkip (e : FsEntry) : Bool :=
  e.name.startsWith "." || treeExcludedNames.contains e.name

/-- `LocalTools._walk(path, prefix, max_depth, current_depth, lines)`:
the lines it appends for a directory at `current_depth` whose readability
and entries are given. -/
def LocalTools.walk (readable : Bool) (entries : List FsEntry) (pre : String)
    (max_depth current_depth : Nat) : List String :=
  walkDirFuel walkSkip (max_depth - current_depth) readable entries pre

/-- `LocalTools.list_directory`: walks the target directory from depth 0.
(`iterdir()` on a file raises; the model takes a directory target, the only
case the walkers are defined for.) -/
def LocalTools.list_directory (root : FsEntry) (max_depth : Nat) : List String :=
  match root with
  | .file _ => []
  | .dir _ r es => walkDirFuel walkSkip max_depth r es ""

/-- `CodeNavigator._tree(path, indent, max_depth, current, lines)`. Its
extra `not path.is_dir()` early return fires only for a non-directory
target, handled in `get_tree`. -/
def CodeNavigator.tree (readable : Bool) (entries : List FsEntry) (indent : String)
    (max_depth current : Nat) : List String :=
  walkDirFuel treeSkip (max_depth - current) readable entries indent

/-- `CodeNavigator.get_tree`: empty for a non-directory target (the
`not path.is_dir()` guard), else the tree walk from depth 0. -/
def CodeNavigator.get_tree (root : FsEntry) (depth : Nat) : List String :=
  match root with
  | .file _ => []
  | .dir _ r es => walkDirFuel treeSkip depth r es ""

/-- How many lines one entry contributes under a given per-subdirectory
count: none when skipped, else its own line plus its subdirectory's. -/
def countEntryWith (skip : FsEntry → Bool) (recurse : Bool → List FsEntry → Nat)
    (e : FsEntry) : Nat :=
  if skip e then 0
  else
    1 + (match e with
         | .file _ => 0
         | .dir _ r es => recurse r es)

/-- Line count of one directory level. -/
def countLevel (skip : FsEntry → Bool) (recurse : Bool → List FsEntry → Nat) :
    List FsEntry → Nat
  | [] => 0
  | e :: rest => countEntryWith skip recurse e + countLevel skip recurse rest

/-- The number of non-skipped entries of a directory lying at relative
depth below `fuel` — the entries a depth-bounded walk may list. Defined
over the unsorted entries, independently of the walkers. -/
def countVisible (skip : FsEntry → Bool) : Nat → Bool → List FsEntry → Nat
  | 0, _, _ => 0
  | f + 1, readable, entries =>
    if readable then
      countLevel skip (fun r es => countVisible skip f r es) entries
    else 0

/-! ## Concrete values used by witnesses and counterexamples -/

/-- The `(status_from, status_to)` wire pair of the one `update_task_status`
call `ExampleAgent._work_on_task` makes (`agent.py`:
`update_task_status(task.id, TaskStatus.IN_PROGRESS, TaskStatus.IN_REVIEW)`). -/
def exampleAgentStatusEdge : String × String :=
  (TaskStatus.in_progress.value, TaskStatus.in_review.value)

/-- A plain 200 response with no decoded body. -/
def okResponse : Client.HttpResponse :=
  { statusCode := 200, bodyTask := none, bodyMessage := none, bodyPR := none }

/-- A concrete task snapshot, as a server could return after a transition. -/
def sampleTask : Task :=
  { id := 1, project_id := 2, title := "t", description := "d"
    status := .in_review, priority := .medium, assigned_agent_id := some 3
    parent_task_id := none, branch_type := .feature, branch_name := "feature/t"
    labels := [], created_by := "sim", created_at := 0, updated_at := 4
    started_at := some 1, completed_at := none }

/-- A 200 response whose body holds `sampleTask`. -/
def taskResponse : Client.HttpResponse :=
  { statusCode := 200, bodyTask := some sampleTask, bodyMessage := none, bodyPR := none }

/-- A working directory holding no files yet. -/
def emptyFs : LocalTools.FileSystem := ⟨[]⟩

/-- A fresh task in `ready`, unassigned. -/
def readyTask : SpecModel.SpecTask :=
  { status := .ready, assigned_agent := none, started_at := none, completed_at := none }

/-- `readyTask` after agent 5 claims it (the `ready→in_progress` edge). -/
def workTask : SpecModel.SpecTask :=
  { status := .in_progress, assigned_agent := some 5, started_at := some 1,
    completed_at := none }

/-- `workTask` driven `in_progress→in_qa`. -/
def qaTask : SpecModel.SpecTask :=
  { status := .in_qa, assigned_agent := some 5, started_at := some 1,
    completed_at := none }

/-- `qaTask` after the QA-fail bounce `in_qa→in_progress`. -/
def bounceTask : SpecModel.SpecTask :=
  { status := .in_progress, assigned_agent := some 5, started_at := some 1,
    completed_at := none }

/-! ## Theorems -/

/-- On success, `SpecModel.transition` commits exactly `applyEdge`. -/
theorem transition_ok_applyEdge (tk tk' : SpecModel.SpecTask)
    (f t : SpecModel.SpecStatus) (caller now : Nat) (live : Bool)
    (h : SpecModel.transition tk f t caller now live = .ok tk') :
    tk' = SpecModel.applyEdge tk f t caller now := by
  unfold SpecModel.transition at h
  split at h
  · exact absurd h (by simp)
  · split at h
    · exact absurd h (by simp)
    · split at h
      · exact (Except.ok.injEq _ _).mp h |>.symm
      · split at h
        · exact (Except.ok.injEq _ _).mp h |>.symm
        · split at h
          · split at h
            · exact absurd h (by simp)
            · exact (Except.ok.injEq _ _).mp h |>.symm
          · exact absurd h (by simp)

/-- Claim C2: for every task claimed by an agent A, a QA-fail
(`in_qa→in_progress`) or review-reject (`in_review→in_progress`)
bounce-back leaves `assigned_agent` untouched (still A), and a successful
transition changes ownership only when it is the claim edge
`ready→in_progress`. -/
theorem transition_ownership_persistence (tk tk' : SpecModel.SpecTask)
    (f t : SpecModel.SpecStatus) (caller now : Nat) (live : Bool)
    (h : SpecModel.transition tk f t caller now live = .ok tk') :
    (((f = .in_qa ∧ t = .in_progress) ∨ (f = .in_review ∧ t = .in_progress)) →
        tk'.assigned_agent = tk.assigned_agent) ∧
    (tk'.assigned_agent ≠ tk.assigned_agent → f = .ready ∧ t = .in_progress) := by
  have he := transition_ok_applyEdge tk tk' f t caller now live h
  subst he
  constructor
  · rintro (⟨hf, ht⟩ | ⟨hf, ht⟩) <;> subst hf <;> subst ht <;>
      simp [SpecModel.applyEdge, SpecModel.isClaimEdge]
  · intro hne
    by_cases hc : SpecModel.isClaimEdge f t = true
    · have := hc
      simp only [SpecModel.isClaimEdge, Bool.and_eq_true, beq_iff_eq] at this
      exact this
    · exact absurd (by simp [SpecModel.applyEdge, hc]) hne

/-- Witness for C2: a task claimed by agent 5 and driven
`ready→in_progress→in_qa→in_progress` (the QA-fail bounce) still has
`assigned_agent = 5` afterwards. -/
theorem transition_ownership_persistence_witness :
    SpecModel.transition readyTask .ready .in_progress 5 1 true = .ok workTask ∧
    SpecModel.transition workTask .in_progress .in_qa 5 2 true = .ok qaTask ∧
    SpecModel.transition qaTask .in_qa .in_progress 5 3 true = .ok bounceTask ∧
    bounceTask.assigned_agent = some 5 := by
  refine ⟨by decide, by decide, by decide, ?_⟩
  have h := transition_ownership_persistence qaTask bounceTask .in_qa .in_progress
    5 3 true (by decide)
  have h2 := h.1 (Or.inl ⟨rfl, rfl⟩)
  simpa [qaTask] using h2

/-- Claim C1 (code-bug evidence): the `TaskStatus` enum of
`agent_sdk/types.py` carries exactly backlog, ready, in_progress,
in_review, done — not the six lifecycle statuses. `in_qa` and `merged`,
which the spec's lifecycle and the repository's own `simulate_pipeline.py`
drive tasks through, are not members (value lookup fails as `ValueError`),
while `done` is a member the lifecycle does not know. -/
theorem taskStatus_vocabulary_bug :
    TaskStatus.all.map TaskStatus.value
        = ["backlog", "ready", "in_progress", "in_review", "done"] ∧
    TaskStatus.all.map TaskStatus.value
        ≠ ["backlog", "ready", "in_progress", "in_qa", "in_review", "merged"] ∧
    TaskStatus.fromString "in_qa" = none ∧
    TaskStatus.fromString "merged" = none ∧
    TaskStatus.fromString "done" = some TaskStatus.done ∧
    (∀ s : TaskStatus, s ∈ TaskStatus.all) ∧
    simulateDrivenStatuses.contains "in_qa" = true ∧
    simulateDrivenStatuses.contains "merged" = true := by
  refine ⟨rfl, by decide, by decide, by decide, by decide, ?_, by decide, by decide⟩
  intro s
  cases s <;> simp [TaskStatus.all]

/-- Claim C6 (code-bug evidence): the `PostType` enum of
`agent_sdk/types.py` has seven members and no `review_feedback` (nor a
`review_request` value — the member is `review_req`), while the
repository's own `simulate_pipeline.py` posts and filters messages with
`post_type = "review_feedback"`. -/
theorem postType_vocabulary_bug :
    PostType.all.map PostType.value
        = ["progress", "blocker", "help_wanted", "decision", "artifact",
           "review_req", "comment"] ∧
    PostType.all.length = 7 ∧
    PostType.fromString "review_feedback" = none ∧
    PostType.fromString "review_request" = none ∧
    (∀ p : PostType, p ∈ PostType.all) ∧
    (∀ p : PostType, p.value ≠ "review_feedback") ∧
    simulatePostTypes.contains "review_feedback" = true := by
  refine ⟨rfl, rfl, by decide, by decide, ?_, ?_, by decide⟩
  · intro p
    cases p <;> simp [PostType.all]
  · intro p
    cases p <;> decide

/-- Claim C4 (code-bug evidence): the one status transition the example
agent requests is `(in_progress, in_review)`, which is not among the
permitted edges of §4.1 (from `in_progress` only `in_qa` is reachable) —
while every edge the repository's own `simulate_pipeline.py` drives is
permitted. -/
theorem exampleAgent_requests_unpermitted_edge :
    exampleAgentStatusEdge = ("in_progress", "in_review") ∧
    SpecModel.permittedEdgeStrings.contains exampleAgentStatusEdge = false ∧
    simulatePatchEdges.all (fun e => SpecModel.permittedEdgeStrings.contains e) = true ∧
    (Client.update_task_status 0 "task-1" TaskStatus.in_progress TaskStatus.in_review
        okResponse).request.body
      = [("status_from", "in_progress"), ("status_to", "in_review")] := by
  refine ⟨rfl, by decide, by decide, rfl⟩

/-- Claim C8: `BaseAgent.start` always shuts down — whether `run` returns
normally or raises, the `finally` block invokes `stop`, so `_running` ends
false and the HTTP client is closed, and `run`'s outcome is then
propagated unchanged. -/
theorem start_always_stops (s : Base.AgentState)
    (runResult : Except Client.PyError Unit) :
    (Base.start s runResult).1.running = false ∧
    (Base.start s runResult).1.clientClosed = true ∧
    (Base.start s runResult).1
        = Base.stop { s with running := true, heartbeatThreadStarted := true } ∧
    (Base.start s runResult).2 = runResult := by
  cases runResult <;> simp [Base.start, Base.tryFinally, Base.stop]

/-- Claim C3 (amended): every status-mutating SDK operation
(`update_task_status`, `post_message`, `open_pr`) does carry an
`X-Idempotency-Key` header — but its value is freshly generated
(`uuid4()`) on every invocation, each call consuming the next position of
the injective uuid supply, so two invocations (a retry included) never
send the same token. -/
theorem mutating_ops_fresh_token (gen : Nat)
    (task_id thread_id agent_id content title bodyText head base : String)
    (f t : TaskStatus) (pt : PostType) (resp : Client.HttpResponse) :
    (Client.update_task_status gen task_id f t resp).request.headers
        = [("X-Idempotency-Key", Client.uuid4 gen)] ∧
    (Client.update_task_status gen task_id f t resp).nextGen = gen + 1 ∧
    (Client.post_message gen thread_id agent_id pt content resp).request.headers
        = [("X-Idempotency-Key", Client.uuid4 gen)] ∧
    (Client.post_message gen thread_id agent_id pt content resp).nextGen = gen + 1 ∧
    (Client.open_pr gen title bodyText head base resp).request.headers
        = [("X-Idempotency-Key", Client.uuid4 gen)] ∧
    (Client.open_pr gen title bodyText head base resp).nextGen = gen + 1 ∧
    (∀ m n : Nat, Client.uuid4 m = Client.uuid4 n → m = n) ∧
    Client.uuid4 gen ≠ Client.uuid4 (gen + 1) := by
  refine ⟨rfl, rfl, rfl, rfl, rfl, rfl, ?_, ?_⟩
  · intro m n hmn
    simpa [Client.uuid4, Client.Uuid.mk.injEq] using hmn
  · simp [Client.uuid4, Client.Uuid.mk.injEq]

/-- Counterexample for C3: two `update_task_status` invocations with
identical arguments — the second being a retry of the first, started from
the supply state the first left behind — send the same method, path and
body but different idempotency tokens. -/
theorem idempotency_token_not_reused_cex :
    (Client.update_task_status 0 "task-1" TaskStatus.in_progress TaskStatus.in_review
        okResponse).request.headers
      ≠ (Client.update_task_status
          (Client.update_task_status 0 "task-1" TaskStatus.in_progress
            TaskStatus.in_review okResponse).nextGen
          "task-1" TaskStatus.in_progress TaskStatus.in_review
          okResponse).request.headers ∧
    (Client.update_task_status 0 "task-1" TaskStatus.in_progress TaskStatus.in_review
        okResponse).request.body
      = (Client.update_task_status
          (Client.update_task_status 0 "task-1" TaskStatus.in_progress
            TaskStatus.in_review okResponse).nextGen
          "task-1" TaskStatus.in_progress TaskStatus.in_review
          okResponse).request.body ∧
    (Client.update_task_status 0 "task-1" TaskStatus.in_progress TaskStatus.in_review
        okResponse).request.path
      = (Client.update_task_status
          (Client.update_task_status 0 "task-1" TaskStatus.in_progress
            TaskStatus.in_review okResponse).nextGen
          "task-1" TaskStatus.in_progress TaskStatus.in_review
          okResponse).request.path := by
  refine ⟨by decide, rfl, rfl⟩

/-- Claim C5 (amended): `update_task_status` checks the response status
(raising `HTTPStatusError` on 4xx/5xx) and otherwise returns `None` — it
never returns a task snapshot, whatever the response body holds. -/
theorem update_task_status_returns_none (gen : Nat) (task_id : String)
    (f t : TaskStatus) (resp : Client.HttpResponse) :
    (Client.update_task_status gen task_id f t resp).result
        = (if 400 ≤ resp.statusCode
           then Except.error (Client.PyError.statusError resp.statusCode)
           else Except.ok Client.ClientReturn.unit) ∧
    (∀ tk : Task,
      (Client.update_task_status gen task_id f t resp).result
        ≠ Except.ok (Client.ClientReturn.task tk)) := by
  constructor
  · by_cases hcode : 400 ≤ resp.statusCode <;>
      simp [Client.update_task_status, Client.raise_for_status, hcode]
  · intro tk hcontra
    by_cases hcode : 400 ≤ resp.statusCode <;>
      simp [Client.update_task_status, Client.raise_for_status, hcode] at hcontra

/-- Counterexample for C5: a successful transition request whose response
even carries the updated task snapshot still hands `None` back to the
caller — the returned value is not a task snapshot. -/
theorem update_task_status_no_snapshot_cex :
    (Client.update_task_status 0 "task-1" TaskStatus.in_progress TaskStatus.in_review
        taskResponse).result = Except.ok Client.ClientReturn.unit ∧
    (∀ tk : Task,
      (Except.ok (Client.ClientReturn.task tk)
          : Except Client.PyError Client.ClientReturn)
        ≠ Except.ok Client.ClientReturn.unit) := by
  refine ⟨rfl, ?_⟩
  intro tk h
  simp at h

/-- Each iteration of `_heartbeat_loop` either succeeds silently or logs
the one exception its `client.heartbeat` call raised; the loop finishes
every trace with exactly those warnings. -/
theorem heartbeatLoopAux_completed (trace : List (Except Client.PyError Nat))
    (log : List Client.PyError) :
    Base.heartbeatLoopAux trace log
      = .completed (log ++ trace.filterMap Base.heartbeatWarning) := by
  induction trace generalizing log with
  | nil => simp [Base.heartbeatLoopAux]
  | cons r rest ih =>
    cases hr : Client.heartbeat r with
    | ok u =>
      simp [Base.heartbeatLoopAux, hr, ih, Base.heartbeatWarning]
    | error e =>
      simp [Base.heartbeatLoopAux, hr, ih, Base.heartbeatWarning,
        Base.isExceptionClass]

/-- Claim C7: the heartbeat loop never crashes because a heartbeat failed.
Every exception `client.heartbeat` can raise is caught by the loop's
`except Exception` and logged as a warning, and the loop runs on to the
next iteration: over any finite trace of attempts it completes, its log
listing exactly the raised exceptions — including the `HTTPStatusError`
an unknown agent id (a 4xx answer, e.g. after a registry restart)
makes `heartbeat`'s `raise_for_status` raise. -/
theorem heartbeat_loop_catches_failures (trace : List (Except Client.PyError Nat)) :
    Base.heartbeatLoop trace
        = .completed (trace.filterMap Base.heartbeatWarning) ∧
    (∀ e : Client.PyError, Base.isExceptionClass e = true) ∧
    (∀ code : Nat, 400 ≤ code →
      Client.heartbeat (Except.ok code)
        = Except.error (Client.PyError.statusError code)) := by
  refine ⟨?_, fun e => rfl, ?_⟩
  · simpa using heartbeatLoopAux_completed trace []
  · intro code hcode
    simp [Client.heartbeat, Client.raise_for_status, hcode]

/-- Joining the split lines restores the text: `splitLinesAux` is a
partition of `acc.reverse ++ s` into newline-terminated chunks. -/
theorem flatten_splitLinesAux (s : List Char) :
    ∀ acc : List Char,
      (LocalTools.splitLinesAux s acc).flatten = acc.reverse ++ s := by
  induction s with
  | nil =>
    intro acc
    cases acc <;> simp [LocalTools.splitLinesAux]
  | cons c cs ih =>
    intro acc
    by_cases hc : c = '\n'
    · subst hc
      simp [LocalTools.splitLinesAux, ih]
    · simp [LocalTools.splitLinesAux, hc, ih (c :: acc)]

/-- `"".join(f.readlines())` is the text the stream yielded. -/
theorem flatten_readlines (content : List Char) :
    (LocalTools.readlines content).flatten = content := by
  simpa using flatten_splitLinesAux content []

/-- The universal-newlines translation is the identity exactly on text
with no carriage return. -/
theorem translateNewlines_of_no_cr (c : List Char) :
    '\r' ∉ c → LocalTools.translateNewlines c = c := by
  simp only [LocalTools.translateNewlines]
  induction c with
  | nil =>
    intro h
    rfl
  | cons x rest ih =>
    intro h
    have hx : x ≠ '\r' := fun hc => h (hc ▸ List.mem_cons_self x rest)
    have hrest : '\r' ∉ rest := fun hc => h (List.mem_cons_of_mem x hc)
    by_cases hn : x = '\n' <;>
      simp [LocalTools.translateNewlinesAux, hx, hn, ih hrest]

/-- Claim C9 (amended): write/read round-trip for carriage-return-free
content — for every filesystem, relative path and string content without
`"\r"`, `read_file` with the default `start_line`/`end_line` immediately
after `write_file` of that content returns exactly the content. (With a
`"\r"` in the content the text-mode read's universal-newlines translation
alters it; see the counterexample.) -/
theorem read_after_write_roundtrip (fs : LocalTools.FileSystem)
    (p : String) (c : String) (h : '\r' ∉ c.data) :
    LocalTools.read_file (LocalTools.write_file fs p c) p 0 none = some c := by
  simp only [LocalTools.read_file, LocalTools.write_file, LocalTools.FileSystem.lookup,
    List.find?, beq_self_eq_true, Option.getD]
  simp [translateNewlines_of_no_cr c.data h, List.take_length, flatten_readlines]

/-- Witness for C9: a concrete newline-only content round-trips exactly. -/
theorem read_after_write_roundtrip_witness :
    ('\r' ∉ ("hello\nworld\n" : String).data) ∧
    LocalTools.read_file (LocalTools.write_file emptyFs "a.txt" "hello\nworld\n")
        "a.txt" 0 none = some "hello\nworld\n" :=
  ⟨by decide, read_after_write_roundtrip emptyFs "a.txt" "hello\nworld\n" (by decide)⟩

/-- Counterexample for C9 as originally stated: the content `"a\rb"` does
not round-trip — written verbatim, the text-mode read's universal-newlines
translation hands back `"a\nb"`. -/
theorem read_after_write_cr_cex :
    LocalTools.read_file (LocalTools.write_file emptyFs "notes.txt" "a\rb")
        "notes.txt" 0 none = some "a\nb" ∧
    ("a\nb" : String) ≠ "a\rb" := by
  refine ⟨by decide, by decide⟩

/-- Inserting an entry adds exactly its own contribution to a level's
count. -/
theorem countLevel_insertEntry (skip : FsEntry → Bool)
    (recurse : Bool → List FsEntry → Nat) (e : FsEntry) (l : List FsEntry) :
    countLevel skip recurse (insertEntry e l)
      = countEntryWith skip recurse e + countLevel skip recurse l := by
  induction l with
  | nil => simp [insertEntry, countLevel]
  | cons x xs ih =>
    by_cases hlt : entryLt e x = true
    · simp [insertEntry, hlt, countLevel]
    · simp only [insertEntry, hlt, if_false, countLevel, ih]
      omega

/-- Sorting a level does not change its count. -/
theorem countLevel_sortEntries (skip : FsEntry → Bool)
    (recurse : Bool → List FsEntry → Nat) (l : List FsEntry) :
    countLevel skip recurse (sortEntries l) = countLevel skip recurse l := by
  induction l with
  | nil => rfl
  | cons e es ih => simp [sortEntries, countLevel_insertEntry, ih, countLevel]

/-- The lines one level emits, counted: when each subdirectory walk's
length is given by `crec` (independently of the prefix), a level's line
count is its `countLevel`. -/
theorem walkLevel_length (skip : FsEntry → Bool)
    (recurse : Bool → List FsEntry → String → List String)
    (crec : Bool → List FsEntry → Nat)
    (hrec : ∀ r es p, (recurse r es p).length = crec r es) :
    ∀ (l : List FsEntry) (pre : String),
      (walkLevel skip recurse l pre).length = countLevel skip crec l := by
  intro l
  induction l with
  | nil =>
    intro pre
    simp [walkLevel, countLevel]
  | cons e rest ih =>
    intro pre
    by_cases hs : skip e = true
    · simp [walkLevel, countLevel, hs, ih, countEntryWith]
    · cases e with
      | file n =>
        simp [walkLevel, countLevel, hs, ih, countEntryWith]
        omega
      | dir n r es =>
        simp [walkLevel, countLevel, hs, ih, countEntryWith, hrec]
        omega

/-- The depth-bounded walk emits one line per visible entry: its output
length is `countVisible` of the same fuel. -/
theorem walkDirFuel_length (skip : FsEntry → Bool) :
    ∀ (fuel : Nat) (readable : Bool) (entries : List FsEntry) (pre : String),
      (walkDirFuel skip fuel readable entries pre).length
        = countVisible skip fuel readable entries := by
  intro fuel
  induction fuel with
  | zero =>
    intro readable entries pre
    rfl
  | succ f ih =>
    intro readable entries pre
    cases hr : readable with
    | false => simp [walkDirFuel, countVisible]
    | true =>
      have h1 := walkLevel_length skip (fun r es p => walkDirFuel skip f r es p)
        (fun r es => countVisible skip f r es)
        (fun r es p => ih r es p) (sortEntries entries) pre
      simp [walkDirFuel, countVisible, h1, countLevel_sortEntries]

/-- Claim C10: the directory walkers terminate on every finite tree (they
are total functions of the tree and the fuel `max_depth - current_depth`,
which each recursive call decrements), and lines are emitted exactly for
the non-skipped entries at relative depth below `max_depth -
current_depth` — in particular `countVisible _ 0` is 0, so a walk entered
at `current_depth = max_depth` emits nothing. -/
theorem walkers_depth_bounded (max_depth current_depth : Nat) (readable : Bool)
    (entries : List FsEntry) (pre : String) :
    (LocalTools.walk readable entries pre max_depth current_depth).length
        = countVisible walkSkip (max_depth - current_depth) readable entries ∧
    (CodeNavigator.tree readable entries pre max_depth current_depth).length
        = countVisible treeSkip (max_depth - current_depth) readable entries ∧
    LocalTools.walk readable entries pre max_depth max_depth = [] ∧
    CodeNavigator.tree readable entries pre max_depth max_depth = [] := by
  refine ⟨walkDirFuel_length walkSkip _ readable entries pre,
    walkDirFuel_length treeSkip _ readable entries pre, ?_, ?_⟩
  · simp [LocalTools.walk, Nat.sub_self, walkDirFuel]
  · simp [CodeNavigator.tree, Nat.sub_self, walkDirFuel]

end AgentRouter
